import Mathlib

/-!
Shallow embedding of the hook-dispatch / shadow-memory subsystem of the
illusion-rs hypervisor, centred on `handle_vmcall`
(src/hypervisor/src/intel/vmexit/vmcall.rs) and the hypercall command
enumeration `Commands` (src/shared/src/lib.rs).

Machine addresses (u64 in the source) are modelled as `Nat`; `handle_vmcall`
only compares, aligns and stores addresses, so no wrap-around arithmetic
occurs on the modelled paths.

The components that `handle_vmcall` calls into (the EPT `swap_page`, the
memory-manager lookups, event injection, the monitor-trap-flag helpers and
the single-step restoration handler) live outside the sampled source files;
each of those is modelled from the specification and marked
`Modelled from the spec:` in its doc comment.  `handle_vmcall` itself and
`Commands` are translated directly from the source.
-/

namespace Illusion

/-- Error kinds surfaced by the modelled paths of the hypervisor.
`PageTableNotFound` and `HookInfoNotFound` are the two errors produced in
`handle_vmcall` (vmcall.rs lines 76 and 86); `UnalignedGuestAddress` models
the failure of the EPT swap contract when the guest address is not
page-aligned (spec section 4.1). -/
inductive HypervisorError where
  | PageTableNotFound
  | HookInfoNotFound
  | UnalignedGuestAddress
  deriving DecidableEq, Repr

/-- Exit classification returned by a VM-exit handler: continue guest
execution or halt (exit the hypervisor loop). Only `Continue` is produced
by the sampled code; the second constructor models the "halt" outcome the
spec names for fatal classifications. -/
inductive ExitType where
  | Continue
  | ExitHypervisor
  deriving DecidableEq, Repr

/-- Access rights of a second-level (EPT) mapping.  `handle_vmcall` only
uses `READ_WRITE_EXECUTE`; the other combinations appear for completeness
of the access-rights type. -/
inductive AccessType where
  | READ_WRITE_EXECUTE
  | READ_WRITE
  | EXECUTE
  deriving DecidableEq, Repr

/-- Hook kinds, from the spec data model (section 3): kernel inline hook,
syscall inline hook, page-level hook.  `handle_vmcall` consumes the kind
only through `hook_size`. -/
inductive EptHookType where
  | kernelInline
  | syscallInline
  | pageLevel
  deriving DecidableEq, Repr

/-- Modelled from the spec: HookDescriptor (section 3) — metadata of one
hooked function.  Only the fields `handle_vmcall` reads are carried. -/
structure HookInfo where
  guest_va : Nat
  guest_pa : Nat
  ept_hook_type : EptHookType
  deriving DecidableEq, Repr

/-- Guest general-purpose register snapshot; only the registers
`handle_vmcall` reads (`rax`, the hypercall number, and `rip`). -/
structure GuestRegisters where
  rax : Nat
  rip : Nat
  deriving DecidableEq, Repr

/-- Modelled from the spec: the Shadow Memory Manager's owned state
(section 4.2) — shadow pages keyed by guest page address, the page-table
cache keyed by guest large-page address, and hook descriptors keyed by
(page address, function address).  Association lists keep every lookup
executable. -/
structure MemoryManager where
  shadow_pages : List (Nat × Nat)
  page_tables : List Nat
  hook_infos : List ((Nat × Nat) × HookInfo)
  deriving DecidableEq, Repr

/-- Modelled from the spec: `get_shadow_page(guest_page_pa) -> optional
host_pa` — the shadow copy's address if the page is hooked, else absent. -/
def MemoryManager.get_shadow_page_as_ptr (mm : MemoryManager) (guest_page_pa : Nat) : Option Nat :=
  mm.shadow_pages.lookup guest_page_pa

/-- Modelled from the spec: `get_page_table(guest_large_page_pa) ->
optional page_table_cache_entry` — the pre-built paging structure for the
large-page region, or absent if never allocated.  The entry's contents are
irrelevant to the modelled paths, so it is `Unit`. -/
def MemoryManager.get_page_table_as_mut (mm : MemoryManager) (guest_large_page_pa : Nat) : Option Unit :=
  if guest_large_page_pa ∈ mm.page_tables then some () else none

/-- Modelled from the spec: `get_hook_info(guest_page_pa,
guest_function_pa) -> optional HookDescriptor`. -/
def MemoryManager.get_hook_info_by_function_pa (mm : MemoryManager) (guest_page_pa guest_function_pa : Nat) : Option HookInfo :=
  mm.hook_infos.lookup (guest_page_pa, guest_function_pa)

/-- Hook manager state carried on the Vm context: the memory manager and
the transient single-step counter (`mtf_counter`, spec section 3
"Single-Step Counter": absent is the steady state). -/
structure HookManager where
  memory_manager : MemoryManager
  mtf_counter : Option Nat
  deriving DecidableEq, Repr

/-- EPT state: the current guest-page-to-host-page mappings with access
rights, as an association list keyed by guest page address. -/
structure Ept where
  mappings : List (Nat × (Nat × AccessType))
  deriving DecidableEq, Repr

/-- Current resolution of a guest page address through the EPT: the mapped
host page address and access rights. -/
def Ept.translate (ept : Ept) (guest_pa : Nat) : Option (Nat × AccessType) :=
  ept.mappings.lookup guest_pa

/-- Base-page size (4 KiB), as in `x86::bits64::paging`. -/
def BASE_PAGE_SIZE : Nat := 4096

/-- Large-page size (2 MiB), as in `x86::bits64::paging`. -/
def LARGE_PAGE_SIZE : Nat := 0x200000

/-- `PAddr::align_down_to_base_page`: clear the low 12 bits. -/
def align_down_to_base_page (pa : Nat) : Nat :=
  pa / BASE_PAGE_SIZE * BASE_PAGE_SIZE

/-- `PAddr::align_down_to_large_page`: align down to a 2 MiB boundary. -/
def align_down_to_large_page (pa : Nat) : Nat :=
  pa / LARGE_PAGE_SIZE * LARGE_PAGE_SIZE

/-- Modelled from the spec: `swap_page(guest_pa, host_pa, access,
page_table_cache_entry) -> success|failure` (section 4.1).  Constraint:
`guest_pa` must be page-aligned.  Effect: atomically retargets the
translation entry for `guest_pa` to `host_pa` with the given access
rights; a failed swap leaves the prior mapping intact. -/
def Ept.swap_page (ept : Ept) (guest_pa host_pa : Nat) (access : AccessType) (_pre_alloc_pt : Unit) : Except HypervisorError Ept :=
  if guest_pa % BASE_PAGE_SIZE = 0 then
    .ok ⟨(guest_pa, (host_pa, access)) :: ept.mappings.filter (fun e => e.1 ≠ guest_pa)⟩
  else
    .error .UnalignedGuestAddress

/-- Per-core VM context threaded through the handler.  The first block of
fields is mutable per-exit state; the trailing function-valued fields model
the machine environment the out-of-scope collaborators consult (guest page
tables for `pa_from_va`, guest memory for the disassembler, the per-kind
hook patch size), constant across the transitions studied here. -/
structure Vm where
  guest_registers : GuestRegisters
  hook_manager : HookManager
  primary_ept : Ept
  monitor_trap_flag : Bool
  interrupt_flag : Bool
  old_if : Option Bool
  pending_gp : Option Nat
  va_to_pa : Nat → Nat
  insn_len : Nat → Nat
  hook_size : EptHookType → Nat

/-- Observable effect of one handler run, used to express ordering claims:
the trace of mutations in the order the handler performs them. -/
inductive Effect where
  | swapPage (guest_pa host_pa : Nat) (access : AccessType)
  | setMtfCounter (counter : Option Nat)
  | setMonitorTrapFlag (armed : Bool)
  | updateGuestInterruptFlag (value : Bool)
  | injectGP (error_code : Nat)
  deriving DecidableEq, Repr

/-- Modelled from the spec: `PhysicalAddress::pa_from_va` — translate a
guest virtual address through the guest's page tables, here the
environment function carried on the context. -/
def Vm.pa_from_va (vm : Vm) (va : Nat) : Nat :=
  vm.va_to_pa va

/-- Modelled from the spec: event injection
`inject_general_protection_fault(error_code)` (section 4.4) — marks the
next VM-entry to deliver a synthetic general-protection fault. -/
def vmentry_inject_gp (vm : Vm) (error_code : Nat) : Vm :=
  { vm with pending_gp := some error_code }

/-- Modelled from the spec: `set_monitor_trap_flag` — arm or disarm
single-stepping (the VMCS monitor-trap-flag control). -/
def set_monitor_trap_flag (vm : Vm) (armed : Bool) : Vm :=
  { vm with monitor_trap_flag := armed }

/-- Modelled from the spec: `update_guest_interrupt_flag(vm, value)` —
set the guest interrupt-enable flag for the single-step window, saving the
previous value so the restoration path can put it back (spec section 4.5:
"clear the guest interrupt-enable flag for the duration of the window",
then "restore the guest interrupt-enable flag"). -/
def update_guest_interrupt_flag (vm : Vm) (value : Bool) : Except HypervisorError Vm :=
  .ok { vm with old_if := some vm.interrupt_flag, interrupt_flag := value }

/-- Modelled from the spec: the fuel-consuming core of
`calculate_instruction_count` — count whole instructions from `pa` until
at least `remaining` bytes are covered.  Every instruction covers at least
one byte (`max 1`), so fuel equal to the byte count suffices and the
recursion is structural. -/
def calcInstructionCountAux (insn_len : Nat → Nat) : Nat → Nat → Nat → Nat
  | _, _, 0 => 0
  | pa, remaining, fuel + 1 =>
    if remaining = 0 then 0
    else
      let len := max 1 (insn_len pa)
      1 + calcInstructionCountAux insn_len (pa + len) (remaining - len) fuel

/-- Modelled from the spec: `calculate_instruction_count(function_pa,
hook_patch_size) -> count` (section 4.2) — disassembles forward from the
function's start until at least `hook_patch_size` bytes are covered by
whole instructions, returning the instruction count.  The disassembler is
abstracted by `insn_len`, the length of the instruction at each address. -/
def calculate_instruction_count (insn_len : Nat → Nat) (function_pa hook_patch_size : Nat) : Nat :=
  calcInstructionCountAux insn_len function_pa hook_patch_size hook_patch_size

/-- Result of one handler run: the returned value, the final context (the
source mutates `vm` through `&mut`, so mutations persist even when the
return value is an error) and the effect trace. -/
structure StepResult where
  result : Except HypervisorError ExitType
  vm : Vm
  trace : List Effect

/-- Translated from src/hypervisor/src/intel/vmexit/vmcall.rs,
`handle_vmcall`: resolve the guest RIP's physical address, its containing
page and large page; if the Shadow Memory Manager holds a shadow page for
the guest page, fetch the page-table cache entry (else
`PageTableNotFound`), swap the EPT entry for the guest page to the guest
page's own address with read-write-execute rights (the source passes
`guest_page_pa` for both arguments of `swap_page`, line 80), resolve the
hook descriptor (else `HookInfoNotFound`), store the instruction count as
the MTF counter, arm the monitor trap flag, clear the guest interrupt
flag, and continue; if no shadow page, inject #GP(0) and continue. -/
def handle_vmcall (vm : Vm) : StepResult :=
  let _vmcall_number := vm.guest_registers.rax
  let guest_function_pa := vm.pa_from_va vm.guest_registers.rip
  let guest_page_pa := align_down_to_base_page guest_function_pa
  let guest_large_page_pa := align_down_to_large_page guest_page_pa
  match vm.hook_manager.memory_manager.get_shadow_page_as_ptr guest_page_pa with
  | some _shadow_page_pa =>
    match vm.hook_manager.memory_manager.get_page_table_as_mut guest_large_page_pa with
    | none => ⟨.error .PageTableNotFound, vm, []⟩
    | some pre_alloc_pt =>
      match vm.primary_ept.swap_page guest_page_pa guest_page_pa .READ_WRITE_EXECUTE pre_alloc_pt with
      | .error e => ⟨.error e, vm, []⟩
      | .ok ept1 =>
        let vm1 : Vm := { vm with primary_ept := ept1 }
        match vm1.hook_manager.memory_manager.get_hook_info_by_function_pa guest_page_pa guest_function_pa with
        | none =>
          ⟨.error .HookInfoNotFound, vm1,
            [.swapPage guest_page_pa guest_page_pa .READ_WRITE_EXECUTE]⟩
        | some hook_info =>
          let instruction_count :=
            calculate_instruction_count vm.insn_len guest_function_pa (vm.hook_size hook_info.ept_hook_type)
          let vm2 : Vm := { vm1 with hook_manager := { vm1.hook_manager with mtf_counter := some instruction_count } }
          let vm3 : Vm := set_monitor_trap_flag vm2 true
          match update_guest_interrupt_flag vm3 false with
          | .error e =>
            ⟨.error e, vm3,
              [.swapPage guest_page_pa guest_page_pa .READ_WRITE_EXECUTE,
               .setMtfCounter (some instruction_count),
               .setMonitorTrapFlag true]⟩
          | .ok vm4 =>
            ⟨.ok .Continue, vm4,
              [.swapPage guest_page_pa guest_page_pa .READ_WRITE_EXECUTE,
               .setMtfCounter (some instruction_count),
               .setMonitorTrapFlag true,
               .updateGuestInterruptFlag false]⟩
  | none =>
    ⟨.ok .Continue, vmentry_inject_gp vm 0, [.injectGP 0]⟩

/-- Modelled from the spec: the single-step (monitor-trap-flag) VM-exit
handler, section 4.5 step 3 — "Single-step traps that occur while the
counter is active decrement it; when it reaches zero, swap the EPT mapping
back to the primary page, restore the guest interrupt-enable flag, and
disarm single-stepping."  The guest page is re-derived from RIP exactly as
in `handle_vmcall` (RIP stays inside the hooked page during the window). -/
def handle_monitor_trap_flag (vm : Vm) : StepResult :=
  match vm.hook_manager.mtf_counter with
  | none => ⟨.ok .Continue, vm, []⟩
  | some counter =>
    let counter' := counter - 1
    if counter' = 0 then
      let guest_function_pa := vm.pa_from_va vm.guest_registers.rip
      let guest_page_pa := align_down_to_base_page guest_function_pa
      let guest_large_page_pa := align_down_to_large_page guest_page_pa
      match vm.hook_manager.memory_manager.get_page_table_as_mut guest_large_page_pa with
      | none => ⟨.error .PageTableNotFound, vm, []⟩
      | some pre_alloc_pt =>
        match vm.primary_ept.swap_page guest_page_pa guest_page_pa .READ_WRITE_EXECUTE pre_alloc_pt with
        | .error e => ⟨.error e, vm, []⟩
        | .ok ept1 =>
          ⟨.ok .Continue,
            { vm with
              primary_ept := ept1,
              hook_manager := { vm.hook_manager with mtf_counter := none },
              monitor_trap_flag := false,
              interrupt_flag := vm.old_if.getD vm.interrupt_flag,
              old_if := none },
            [.swapPage guest_page_pa guest_page_pa .READ_WRITE_EXECUTE,
             .setMtfCounter none,
             .setMonitorTrapFlag false,
             .updateGuestInterruptFlag (vm.old_if.getD vm.interrupt_flag)]⟩
    else
      ⟨.ok .Continue,
        { vm with hook_manager := { vm.hook_manager with mtf_counter := some counter' } },
        [.setMtfCounter (some counter')]⟩

/-- Iterate the single-step handler's state transition `k` times. -/
def mtfSteps : Nat → Vm → Vm
  | 0, vm => vm
  | k + 1, vm => mtfSteps k (handle_monitor_trap_flag vm).vm

/-- Hypercall command enumeration, translated from src/shared/src/lib.rs. -/
inductive Commands where
  | EnableKernelInlineHook
  | EnableSyscallInlineHook
  | DisablePageHook
  | Invalid
  deriving DecidableEq, Repr

/-- The `repr(u64)` discriminant of a command (`c as u64` in Rust):
explicit values 0, 1, 2, and the implicit successor 3 for `Invalid`. -/
def Commands.toU64 : Commands → Nat
  | .EnableKernelInlineHook => 0
  | .EnableSyscallInlineHook => 1
  | .DisablePageHook => 2
  | .Invalid => 3

/-- Translated from src/shared/src/lib.rs, `Commands::from_u64`: match on
the value with a catch-all arm to `Invalid`. -/
def Commands.from_u64 (value : Nat) : Commands :=
  match value with
  | 0 => .EnableKernelInlineHook
  | 1 => .EnableSyscallInlineHook
  | 2 => .DisablePageHook
  | _ => .Invalid

/-- Replace the hypercall number (guest RAX) on a context, leaving every
other component untouched; used to state command-number independence. -/
def Vm.setRax (vm : Vm) (x : Nat) : Vm :=
  { vm with guest_registers := { vm.guest_registers with rax := x } }

/-- Replace the single-step counter on a context, leaving every other
component untouched; used to describe the decrement phase. -/
def Vm.withCounter (vm : Vm) (c : Option Nat) : Vm :=
  { vm with hook_manager := { vm.hook_manager with mtf_counter := c } }

/-- A concrete context whose guest RIP page `0x1000` carries a hook: the
Shadow Memory Manager holds a shadow page at `0x5000`, the page-table
cache covers large page `0`, and a kernel-inline hook descriptor is
registered for function address `0x1000` (identity guest translation,
one-byte instructions, three-byte patch). -/
def vmHooked : Vm :=
  { guest_registers := ⟨0, 0x1000⟩
    hook_manager :=
      ⟨⟨[(0x1000, 0x5000)], [0], [((0x1000, 0x1000), ⟨0x1000, 0x1000, .kernelInline⟩)]⟩, none⟩
    primary_ept := ⟨[(0x1000, (0x5000, .EXECUTE))]⟩
    monitor_trap_flag := false
    interrupt_flag := true
    old_if := none
    pending_gp := none
    va_to_pa := fun va => va
    insn_len := fun _ => 1
    hook_size := fun _ => 3 }

/-- A concrete context with no hook anywhere: all three manager maps are
empty and the EPT maps page `0x1000` identically. -/
def vmNoHook : Vm :=
  { vmHooked with
    hook_manager := ⟨⟨[], [], []⟩, none⟩
    primary_ept := ⟨[(0x1000, (0x1000, .READ_WRITE_EXECUTE))]⟩ }

/-- A concrete inconsistent context: page `0x1000` has a shadow page but
the page-table cache is empty. -/
def vmMissingPt : Vm :=
  { vmHooked with hook_manager := ⟨⟨[(0x1000, 0x5000)], [], []⟩, none⟩ }

/-- A concrete inconsistent context: page `0x1000` has a shadow page and a
page-table cache entry, but no hook descriptor. -/
def vmMissingHookInfo : Vm :=
  { vmHooked with hook_manager := ⟨⟨[(0x1000, 0x5000)], [0], []⟩, none⟩ }

/-- Aligning down to the base page always yields a page-aligned address. -/
theorem align_down_to_base_page_mod (pa : Nat) :
    align_down_to_base_page pa % BASE_PAGE_SIZE = 0 := by
  simp [align_down_to_base_page, Nat.mul_mod_left]

theorem setRax_hook_manager (vm : Vm) (x : Nat) : (vm.setRax x).hook_manager = vm.hook_manager := rfl

theorem setRax_rip (vm : Vm) (x : Nat) : (vm.setRax x).guest_registers.rip = vm.guest_registers.rip := rfl

theorem setRax_va_to_pa (vm : Vm) (x : Nat) : (vm.setRax x).va_to_pa = vm.va_to_pa := rfl

theorem setRax_primary_ept (vm : Vm) (x : Nat) : (vm.setRax x).primary_ept = vm.primary_ept := rfl

theorem setRax_insn_len (vm : Vm) (x : Nat) : (vm.setRax x).insn_len = vm.insn_len := rfl

theorem setRax_hook_size (vm : Vm) (x : Nat) : (vm.setRax x).hook_size = vm.hook_size := rfl

theorem withCounter_self (vm : Vm) : vm.withCounter vm.hook_manager.mtf_counter = vm := rfl

theorem withCounter_guest_registers (vm : Vm) (c : Option Nat) :
    (vm.withCounter c).guest_registers = vm.guest_registers := rfl

theorem withCounter_va_to_pa (vm : Vm) (c : Option Nat) :
    (vm.withCounter c).va_to_pa = vm.va_to_pa := rfl

theorem withCounter_primary_ept (vm : Vm) (c : Option Nat) :
    (vm.withCounter c).primary_ept = vm.primary_ept := rfl

theorem withCounter_old_if (vm : Vm) (c : Option Nat) :
    (vm.withCounter c).old_if = vm.old_if := rfl

theorem withCounter_interrupt_flag (vm : Vm) (c : Option Nat) :
    (vm.withCounter c).interrupt_flag = vm.interrupt_flag := rfl

theorem withCounter_pending_gp (vm : Vm) (c : Option Nat) :
    (vm.withCounter c).pending_gp = vm.pending_gp := rfl

theorem withCounter_insn_len (vm : Vm) (c : Option Nat) :
    (vm.withCounter c).insn_len = vm.insn_len := rfl

theorem withCounter_hook_size (vm : Vm) (c : Option Nat) :
    (vm.withCounter c).hook_size = vm.hook_size := rfl

theorem withCounter_memory_manager (vm : Vm) (c : Option Nat) :
    (vm.withCounter c).hook_manager.memory_manager = vm.hook_manager.memory_manager := rfl

/-- Characterization of `handle_vmcall` on the no-shadow path: inject
#GP(0) and continue, touching nothing else. -/
theorem handle_vmcall_no_shadow_eq (vm : Vm)
    (hs : vm.hook_manager.memory_manager.get_shadow_page_as_ptr
        (align_down_to_base_page (vm.va_to_pa vm.guest_registers.rip)) = none) :
    handle_vmcall vm = ⟨.ok .Continue, vmentry_inject_gp vm 0, [.injectGP 0]⟩ := by
  unfold handle_vmcall
  simp only [Vm.pa_from_va, hs]

/-- Characterization of `handle_vmcall` on the missing-page-table path:
return `PageTableNotFound`, touching nothing. -/
theorem handle_vmcall_no_pt_eq (vm : Vm) (spa : Nat)
    (hs : vm.hook_manager.memory_manager.get_shadow_page_as_ptr
        (align_down_to_base_page (vm.va_to_pa vm.guest_registers.rip)) = some spa)
    (hpt : vm.hook_manager.memory_manager.get_page_table_as_mut
        (align_down_to_large_page (align_down_to_base_page (vm.va_to_pa vm.guest_registers.rip))) = none) :
    handle_vmcall vm = ⟨.error .PageTableNotFound, vm, []⟩ := by
  unfold handle_vmcall
  simp only [Vm.pa_from_va, hs, hpt]

/-- Characterization of `handle_vmcall` on the missing-hook-descriptor
path: the EPT swap has already happened and persists, and the handler
returns `HookInfoNotFound` with no further mutation. -/
theorem handle_vmcall_no_hook_info_eq (vm : Vm) (spa : Nat)
    (hs : vm.hook_manager.memory_manager.get_shadow_page_as_ptr
        (align_down_to_base_page (vm.va_to_pa vm.guest_registers.rip)) = some spa)
    (hpt : vm.hook_manager.memory_manager.get_page_table_as_mut
        (align_down_to_large_page (align_down_to_base_page (vm.va_to_pa vm.guest_registers.rip))) = some ())
    (hhi : vm.hook_manager.memory_manager.get_hook_info_by_function_pa
        (align_down_to_base_page (vm.va_to_pa vm.guest_registers.rip))
        (vm.va_to_pa vm.guest_registers.rip) = none) :
    handle_vmcall vm =
      ⟨.error .HookInfoNotFound,
       { vm with primary_ept :=
          ⟨(align_down_to_base_page (vm.va_to_pa vm.guest_registers.rip),
             (align_down_to_base_page (vm.va_to_pa vm.guest_registers.rip), .READ_WRITE_EXECUTE)) ::
            vm.primary_ept.mappings.filter
              (fun e => e.1 ≠ align_down_to_base_page (vm.va_to_pa vm.guest_registers.rip))⟩ },
       [.swapPage (align_down_to_base_page (vm.va_to_pa vm.guest_registers.rip))
          (align_down_to_base_page (vm.va_to_pa vm.guest_registers.rip)) .READ_WRITE_EXECUTE]⟩ := by
  unfold handle_vmcall
  simp only [Vm.pa_from_va, hs, hpt, hhi, Ept.swap_page, align_down_to_base_page_mod,
    if_pos, reduceIte]

/-- Characterization of `handle_vmcall` on the full hook-activation path:
swap the guest page's EPT entry to itself with read-write-execute rights,
store the computed instruction count as the MTF counter, arm the monitor
trap flag, save and clear the guest interrupt flag, and continue. -/
theorem handle_vmcall_hooked_eq (vm : Vm) (spa : Nat) (info : HookInfo)
    (hs : vm.hook_manager.memory_manager.get_shadow_page_as_ptr
        (align_down_to_base_page (vm.va_to_pa vm.guest_registers.rip)) = some spa)
    (hpt : vm.hook_manager.memory_manager.get_page_table_as_mut
        (align_down_to_large_page (align_down_to_base_page (vm.va_to_pa vm.guest_registers.rip))) = some ())
    (hhi : vm.hook_manager.memory_manager.get_hook_info_by_function_pa
        (align_down_to_base_page (vm.va_to_pa vm.guest_registers.rip))
        (vm.va_to_pa vm.guest_registers.rip) = some info) :
    handle_vmcall vm =
      ⟨.ok .Continue,
       { vm with
         primary_ept :=
          ⟨(align_down_to_base_page (vm.va_to_pa vm.guest_registers.rip),
             (align_down_to_base_page (vm.va_to_pa vm.guest_registers.rip), .READ_WRITE_EXECUTE)) ::
            vm.primary_ept.mappings.filter
              (fun e => e.1 ≠ align_down_to_base_page (vm.va_to_pa vm.guest_registers.rip))⟩
         hook_manager :=
          { vm.hook_manager with
            mtf_counter := some (calculate_instruction_count vm.insn_len
              (vm.va_to_pa vm.guest_registers.rip) (vm.hook_size info.ept_hook_type)) }
         monitor_trap_flag := true
         interrupt_flag := false
         old_if := some vm.interrupt_flag },
       [.swapPage (align_down_to_base_page (vm.va_to_pa vm.guest_registers.rip))
          (align_down_to_base_page (vm.va_to_pa vm.guest_registers.rip)) .READ_WRITE_EXECUTE,
        .setMtfCounter (some (calculate_instruction_count vm.insn_len
          (vm.va_to_pa vm.guest_registers.rip) (vm.hook_size info.ept_hook_type))),
        .setMonitorTrapFlag true,
        .updateGuestInterruptFlag false]⟩ := by
  unfold handle_vmcall
  simp only [Vm.pa_from_va, hs, hpt, hhi, Ept.swap_page, align_down_to_base_page_mod,
    if_pos, reduceIte, set_monitor_trap_flag, update_guest_interrupt_flag]

/-- While the counter is at least 2, one single-step trap only decrements
it: no other component of the context changes. -/
theorem handle_mtf_decrement (vm : Vm) (m : Nat)
    (h : vm.hook_manager.mtf_counter = some m) (hm : 2 ≤ m) :
    handle_monitor_trap_flag vm =
      ⟨.ok .Continue, vm.withCounter (some (m - 1)), [.setMtfCounter (some (m - 1))]⟩ := by
  unfold handle_monitor_trap_flag
  rw [h]
  simp only [Vm.withCounter]
  rw [if_neg (by omega)]

/-- When the counter is exactly 1, the single-step trap performs the
restoration: swap the guest page's EPT entry back, clear the counter,
disarm the monitor trap flag, and restore the saved interrupt flag. -/
theorem handle_mtf_restore (vm : Vm)
    (h : vm.hook_manager.mtf_counter = some 1)
    (hpt : vm.hook_manager.memory_manager.get_page_table_as_mut
        (align_down_to_large_page (align_down_to_base_page (vm.va_to_pa vm.guest_registers.rip))) = some ()) :
    handle_monitor_trap_flag vm =
      ⟨.ok .Continue,
       { vm with
         primary_ept :=
          ⟨(align_down_to_base_page (vm.va_to_pa vm.guest_registers.rip),
             (align_down_to_base_page (vm.va_to_pa vm.guest_registers.rip), .READ_WRITE_EXECUTE)) ::
            vm.primary_ept.mappings.filter
              (fun e => e.1 ≠ align_down_to_base_page (vm.va_to_pa vm.guest_registers.rip))⟩
         hook_manager := { vm.hook_manager with mtf_counter := none }
         monitor_trap_flag := false
         interrupt_flag := vm.old_if.getD vm.interrupt_flag
         old_if := none },
       [.swapPage (align_down_to_base_page (vm.va_to_pa vm.guest_registers.rip))
          (align_down_to_base_page (vm.va_to_pa vm.guest_registers.rip)) .READ_WRITE_EXECUTE,
        .setMtfCounter none,
        .setMonitorTrapFlag false,
        .updateGuestInterruptFlag (vm.old_if.getD vm.interrupt_flag)]⟩ := by
  unfold handle_monitor_trap_flag
  rw [h]
  simp only [Vm.pa_from_va, Nat.sub_self, reduceIte, hpt, Ept.swap_page,
    align_down_to_base_page_mod, if_pos]

/-- Iterating `k` single-step traps from a context whose counter is `m`
with `k < m` just decrements the counter `k` times. -/
theorem mtfSteps_decrement (k : Nat) :
    ∀ (vm : Vm) (m : Nat), vm.hook_manager.mtf_counter = some m → k < m →
      mtfSteps k vm = vm.withCounter (some (m - k)) := by
  induction k with
  | zero =>
    intro vm m h _
    rw [mtfSteps, Nat.sub_zero, ← h, withCounter_self]
  | succ k ih =>
    intro vm m h hk
    rw [mtfSteps, handle_mtf_decrement vm m h (by omega)]
    have h2 : (vm.withCounter (some (m - 1))).hook_manager.mtf_counter = some (m - 1) := rfl
    rw [ih (vm.withCounter (some (m - 1))) (m - 1) h2 (by omega)]
    have : (m - 1 - k) = m - (k + 1) := by omega
    rw [this]
    rfl

/-- Peel the last trap: `k + 1` traps are `k` traps followed by one. -/
theorem mtfSteps_succ_back (k : Nat) :
    ∀ vm : Vm, mtfSteps (k + 1) vm = (handle_monitor_trap_flag (mtfSteps k vm)).vm := by
  induction k with
  | zero => intro vm; rfl
  | succ k ih =>
    intro vm
    rw [mtfSteps, ih, mtfSteps]

/-- Commutation of `handle_vmcall` with replacing the hypercall number:
the handler never consults guest RAX, so running it on a context with RAX
set to `x` is the same as running it on the original context and then
setting RAX to `x` on the outcome. -/
theorem handle_vmcall_setRax (vm : Vm) (x : Nat) :
    handle_vmcall (vm.setRax x) =
      ⟨(handle_vmcall vm).result, ((handle_vmcall vm).vm).setRax x, (handle_vmcall vm).trace⟩ := by
  unfold handle_vmcall
  simp only [Vm.pa_from_va, setRax_hook_manager, setRax_rip, setRax_va_to_pa,
    setRax_primary_ept, setRax_insn_len, setRax_hook_size]
  cases hs : vm.hook_manager.memory_manager.get_shadow_page_as_ptr
      (align_down_to_base_page (vm.va_to_pa vm.guest_registers.rip)) with
  | none => rfl
  | some spa =>
    cases hpt : vm.hook_manager.memory_manager.get_page_table_as_mut
        (align_down_to_large_page (align_down_to_base_page (vm.va_to_pa vm.guest_registers.rip))) with
    | none => rfl
    | some pt =>
      simp only [Ept.swap_page, align_down_to_base_page_mod, reduceIte]
      cases hhi : vm.hook_manager.memory_manager.get_hook_info_by_function_pa
          (align_down_to_base_page (vm.va_to_pa vm.guest_registers.rip))
          (vm.va_to_pa vm.guest_registers.rip) with
      | none => rfl
      | some info => rfl

/-- C1 (counterexample to the literal claim): in `vmHooked`, page `0x1000`
has the registered shadow page `0x5000`, yet immediately after
`handle_vmcall` the EPT mapping for the page resolves to `0x1000` itself —
not to the shadow page's address returned by `get_shadow_page_as_ptr`. -/
theorem C1_counterexample :
    vmHooked.hook_manager.memory_manager.get_shadow_page_as_ptr 0x1000 = some 0x5000 ∧
    (handle_vmcall vmHooked).result = .ok .Continue ∧
    (handle_vmcall vmHooked).vm.primary_ept.translate 0x1000 =
      some (0x1000, .READ_WRITE_EXECUTE) ∧
    (handle_vmcall vmHooked).vm.primary_ept.translate 0x1000 ≠
      some (0x5000, .READ_WRITE_EXECUTE) := by
  refine ⟨rfl, rfl, rfl, ?_⟩
  decide

/-- C1 (amended): for every guest-physical page P with a registered hook,
immediately after `handle_vmcall` processes a hypercall exit whose guest
RIP lies in P (the page-table cache entry and hook descriptor being
present), the EPT mapping for P resolves to P's own host-physical
address — the source passes `guest_page_pa`, not the shadow page pointer,
as the swap target — with read-write-execute access rights. -/
theorem C1_ept_mapping_after_vmcall (vm : Vm) (spa : Nat) (info : HookInfo)
    (hs : vm.hook_manager.memory_manager.get_shadow_page_as_ptr
        (align_down_to_base_page (vm.va_to_pa vm.guest_registers.rip)) = some spa)
    (hpt : vm.hook_manager.memory_manager.get_page_table_as_mut
        (align_down_to_large_page (align_down_to_base_page (vm.va_to_pa vm.guest_registers.rip))) = some ())
    (hhi : vm.hook_manager.memory_manager.get_hook_info_by_function_pa
        (align_down_to_base_page (vm.va_to_pa vm.guest_registers.rip))
        (vm.va_to_pa vm.guest_registers.rip) = some info) :
    (handle_vmcall vm).result = .ok .Continue ∧
    (handle_vmcall vm).vm.primary_ept.translate
        (align_down_to_base_page (vm.va_to_pa vm.guest_registers.rip)) =
      some (align_down_to_base_page (vm.va_to_pa vm.guest_registers.rip), .READ_WRITE_EXECUTE) := by
  rw [handle_vmcall_hooked_eq vm spa info hs hpt hhi]
  refine ⟨rfl, ?_⟩
  simp [Ept.translate, List.lookup]

/-- Witness for C1 (amended) at the concrete hooked context. -/
theorem C1_witness :
    (handle_vmcall vmHooked).result = .ok .Continue ∧
    (handle_vmcall vmHooked).vm.primary_ept.translate
        (align_down_to_base_page (vmHooked.va_to_pa vmHooked.guest_registers.rip)) =
      some (align_down_to_base_page (vmHooked.va_to_pa vmHooked.guest_registers.rip),
        .READ_WRITE_EXECUTE) :=
  C1_ept_mapping_after_vmcall vmHooked 0x5000 ⟨0x1000, 0x1000, .kernelInline⟩ rfl rfl rfl

/-- C2: for every VM state in which the guest RIP's containing page has no
shadow page, `handle_vmcall` injects a general-protection fault into the
guest and returns `Ok(ExitType::Continue)` — never an error, never a
halt — regardless of the hypercall number in guest RAX. -/
theorem C2_unknown_hypercall_safe (vm : Vm) (c : Nat)
    (hs : vm.hook_manager.memory_manager.get_shadow_page_as_ptr
        (align_down_to_base_page (vm.va_to_pa vm.guest_registers.rip)) = none) :
    (handle_vmcall (vm.setRax c)).result = .ok .Continue ∧
    (handle_vmcall (vm.setRax c)).vm.pending_gp = some 0 ∧
    (handle_vmcall (vm.setRax c)).trace = [.injectGP 0] := by
  rw [handle_vmcall_no_shadow_eq (vm.setRax c) hs]
  exact ⟨rfl, rfl, rfl⟩

/-- Witness for C2 at the concrete unhooked context with hypercall
number 42. -/
theorem C2_witness :
    (handle_vmcall (vmNoHook.setRax 42)).result = .ok .Continue ∧
    (handle_vmcall (vmNoHook.setRax 42)).vm.pending_gp = some 0 ∧
    (handle_vmcall (vmNoHook.setRax 42)).trace = [.injectGP 0] :=
  C2_unknown_hypercall_safe vmNoHook 42 rfl

/-- C3: on the hook-activation path the effect order of `handle_vmcall` is
exactly: EPT page swap, then store of the single-step counter, then
arming the monitor trap flag, then clearing the guest interrupt-enable
flag — so the interrupt flag is cleared only after the swap has completed
successfully, with no effect out of this order. -/
theorem C3_effect_order (vm : Vm) (spa : Nat) (info : HookInfo)
    (hs : vm.hook_manager.memory_manager.get_shadow_page_as_ptr
        (align_down_to_base_page (vm.va_to_pa vm.guest_registers.rip)) = some spa)
    (hpt : vm.hook_manager.memory_manager.get_page_table_as_mut
        (align_down_to_large_page (align_down_to_base_page (vm.va_to_pa vm.guest_registers.rip))) = some ())
    (hhi : vm.hook_manager.memory_manager.get_hook_info_by_function_pa
        (align_down_to_base_page (vm.va_to_pa vm.guest_registers.rip))
        (vm.va_to_pa vm.guest_registers.rip) = some info) :
    (handle_vmcall vm).result = .ok .Continue ∧
    (handle_vmcall vm).trace =
      [.swapPage (align_down_to_base_page (vm.va_to_pa vm.guest_registers.rip))
         (align_down_to_base_page (vm.va_to_pa vm.guest_registers.rip)) .READ_WRITE_EXECUTE,
       .setMtfCounter (some (calculate_instruction_count vm.insn_len
         (vm.va_to_pa vm.guest_registers.rip) (vm.hook_size info.ept_hook_type))),
       .setMonitorTrapFlag true,
       .updateGuestInterruptFlag false] := by
  rw [handle_vmcall_hooked_eq vm spa info hs hpt hhi]
  exact ⟨rfl, rfl⟩

/-- Witness for C3 at the concrete hooked context. -/
theorem C3_witness :
    (handle_vmcall vmHooked).result = .ok .Continue ∧
    (handle_vmcall vmHooked).trace =
      [.swapPage (align_down_to_base_page (vmHooked.va_to_pa vmHooked.guest_registers.rip))
         (align_down_to_base_page (vmHooked.va_to_pa vmHooked.guest_registers.rip)) .READ_WRITE_EXECUTE,
       .setMtfCounter (some (calculate_instruction_count vmHooked.insn_len
         (vmHooked.va_to_pa vmHooked.guest_registers.rip)
         (vmHooked.hook_size (HookInfo.ept_hook_type ⟨0x1000, 0x1000, .kernelInline⟩)))),
       .setMonitorTrapFlag true,
       .updateGuestInterruptFlag false] :=
  C3_effect_order vmHooked 0x5000 ⟨0x1000, 0x1000, .kernelInline⟩ rfl rfl rfl

/-- Running the single-step window from any context whose counter holds
`N ≥ 1` and whose saved interrupt flag is `b`: each of the first `N` traps
only decrements the counter, and the `N`-th trap restores the page
mapping, clears the counter, disarms the monitor trap flag and restores
the interrupt flag to `b`. -/
theorem mtf_window_run (S : Vm) (N k : Nat) (b : Bool)
    (hc : S.hook_manager.mtf_counter = some N)
    (hb : S.old_if = some b)
    (hpt : S.hook_manager.memory_manager.get_page_table_as_mut
        (align_down_to_large_page (align_down_to_base_page (S.va_to_pa S.guest_registers.rip))) = some ())
    (hN : 1 ≤ N) (hk : k < N) :
    (mtfSteps k S).hook_manager.mtf_counter = some (N - k) ∧
    (mtfSteps k S).monitor_trap_flag = S.monitor_trap_flag ∧
    (mtfSteps N S).hook_manager.mtf_counter = none ∧
    (mtfSteps N S).monitor_trap_flag = false ∧
    (mtfSteps N S).interrupt_flag = b ∧
    (mtfSteps N S).old_if = none ∧
    (mtfSteps N S).primary_ept.translate
        (align_down_to_base_page (S.va_to_pa S.guest_registers.rip)) =
      some (align_down_to_base_page (S.va_to_pa S.guest_registers.rip), .READ_WRITE_EXECUTE) := by
  have hdec : mtfSteps k S = S.withCounter (some (N - k)) :=
    mtfSteps_decrement k S N hc hk
  have hpre : mtfSteps (N - 1) S = S.withCounter (some 1) := by
    rcases Nat.eq_or_lt_of_le hN with h1 | h1
    · rw [← h1]
      show S = S.withCounter (some 1)
      rw [← h1] at hc
      rw [← hc, withCounter_self]
    · have hd := mtfSteps_decrement (N - 1) S N hc (by omega)
      have h2 : N - (N - 1) = 1 := by omega
      rw [hd, h2]
  have hN1 : N - 1 + 1 = N := by omega
  have hback : mtfSteps N S = (handle_monitor_trap_flag (mtfSteps (N - 1) S)).vm := by
    conv_lhs => rw [← hN1]
    rw [mtfSteps_succ_back]
  have hrest := handle_mtf_restore (S.withCounter (some 1)) rfl hpt
  rw [hpre, hrest] at hback
  simp only [withCounter_guest_registers, withCounter_va_to_pa, withCounter_primary_ept,
    withCounter_old_if, withCounter_interrupt_flag, withCounter_pending_gp,
    withCounter_insn_len, withCounter_hook_size] at hback
  refine ⟨?_, ?_, ?_, ?_, ?_, ?_, ?_⟩
  · rw [hdec]; rfl
  · rw [hdec]; rfl
  · rw [hback]
  · rw [hback]
  · rw [hback]
    show S.old_if.getD S.interrupt_flag = b
    rw [hb]
    rfl
  · rw [hback]
  · rw [hback]
    simp [Ept.translate, List.lookup]

/-- C4: for every hook activation with instruction count N (the counter
stored by `handle_vmcall`, N ≥ 1), each of the first N single-step traps
only decrements the counter (single-stepping stays armed), and after
exactly N traps the EPT mapping is restored to the primary page, the
counter is cleared, the monitor trap flag is disarmed, and the guest
interrupt-enable flag again equals its pre-activation value. -/
theorem C4_restoration_completeness (vm : Vm) (spa : Nat) (info : HookInfo) (k : Nat)
    (hs : vm.hook_manager.memory_manager.get_shadow_page_as_ptr
        (align_down_to_base_page (vm.va_to_pa vm.guest_registers.rip)) = some spa)
    (hpt : vm.hook_manager.memory_manager.get_page_table_as_mut
        (align_down_to_large_page (align_down_to_base_page (vm.va_to_pa vm.guest_registers.rip))) = some ())
    (hhi : vm.hook_manager.memory_manager.get_hook_info_by_function_pa
        (align_down_to_base_page (vm.va_to_pa vm.guest_registers.rip))
        (vm.va_to_pa vm.guest_registers.rip) = some info)
    (hN : 1 ≤ calculate_instruction_count vm.insn_len (vm.va_to_pa vm.guest_registers.rip)
        (vm.hook_size info.ept_hook_type))
    (hk : k < calculate_instruction_count vm.insn_len (vm.va_to_pa vm.guest_registers.rip)
        (vm.hook_size info.ept_hook_type)) :
    (mtfSteps k (handle_vmcall vm).vm).hook_manager.mtf_counter =
      some (calculate_instruction_count vm.insn_len (vm.va_to_pa vm.guest_registers.rip)
        (vm.hook_size info.ept_hook_type) - k) ∧
    (mtfSteps k (handle_vmcall vm).vm).monitor_trap_flag = true ∧
    (mtfSteps (calculate_instruction_count vm.insn_len (vm.va_to_pa vm.guest_registers.rip)
        (vm.hook_size info.ept_hook_type)) (handle_vmcall vm).vm).hook_manager.mtf_counter = none ∧
    (mtfSteps (calculate_instruction_count vm.insn_len (vm.va_to_pa vm.guest_registers.rip)
        (vm.hook_size info.ept_hook_type)) (handle_vmcall vm).vm).monitor_trap_flag = false ∧
    (mtfSteps (calculate_instruction_count vm.insn_len (vm.va_to_pa vm.guest_registers.rip)
        (vm.hook_size info.ept_hook_type)) (handle_vmcall vm).vm).interrupt_flag =
      vm.interrupt_flag ∧
    (mtfSteps (calculate_instruction_count vm.insn_len (vm.va_to_pa vm.guest_registers.rip)
        (vm.hook_size info.ept_hook_type)) (handle_vmcall vm).vm).primary_ept.translate
        (align_down_to_base_page (vm.va_to_pa vm.guest_registers.rip)) =
      some (align_down_to_base_page (vm.va_to_pa vm.guest_registers.rip), .READ_WRITE_EXECUTE) := by
  have hvm := handle_vmcall_hooked_eq vm spa info hs hpt hhi
  have hc : (handle_vmcall vm).vm.hook_manager.mtf_counter =
      some (calculate_instruction_count vm.insn_len (vm.va_to_pa vm.guest_registers.rip)
        (vm.hook_size info.ept_hook_type)) := by rw [hvm]
  have hb : (handle_vmcall vm).vm.old_if = some vm.interrupt_flag := by rw [hvm]
  have haddr : (handle_vmcall vm).vm.va_to_pa (handle_vmcall vm).vm.guest_registers.rip =
      vm.va_to_pa vm.guest_registers.rip := by rw [hvm]
  have hflag : (handle_vmcall vm).vm.monitor_trap_flag = true := by rw [hvm]
  have hpt' : (handle_vmcall vm).vm.hook_manager.memory_manager.get_page_table_as_mut
      (align_down_to_large_page (align_down_to_base_page
        ((handle_vmcall vm).vm.va_to_pa (handle_vmcall vm).vm.guest_registers.rip))) = some () := by
    rw [hvm]
    exact hpt
  have h := mtf_window_run ((handle_vmcall vm).vm)
    (calculate_instruction_count vm.insn_len (vm.va_to_pa vm.guest_registers.rip)
      (vm.hook_size info.ept_hook_type)) k vm.interrupt_flag hc hb hpt' hN hk
  rw [haddr, hflag] at h
  exact ⟨h.1, h.2.1, h.2.2.1, h.2.2.2.1, h.2.2.2.2.1, h.2.2.2.2.2.2⟩

/-- Witness for C4 at the concrete hooked context: count 3, checked after
trap 1 and after trap 3. -/
theorem C4_witness :
    (mtfSteps 1 (handle_vmcall vmHooked).vm).hook_manager.mtf_counter = some 2 ∧
    (mtfSteps 1 (handle_vmcall vmHooked).vm).monitor_trap_flag = true ∧
    (mtfSteps 3 (handle_vmcall vmHooked).vm).hook_manager.mtf_counter = none ∧
    (mtfSteps 3 (handle_vmcall vmHooked).vm).monitor_trap_flag = false ∧
    (mtfSteps 3 (handle_vmcall vmHooked).vm).interrupt_flag = vmHooked.interrupt_flag ∧
    (mtfSteps 3 (handle_vmcall vmHooked).vm).primary_ept.translate 0x1000 =
      some (0x1000, .READ_WRITE_EXECUTE) :=
  C4_restoration_completeness vmHooked 0x5000 ⟨0x1000, 0x1000, .kernelInline⟩ 1
    rfl rfl rfl (by decide) (by decide)

/-- C5: given a shadow page for the guest RIP's page, a missing page-table
cache entry makes `handle_vmcall` return `Err(PageTableNotFound)` with no
effect at all, and a present page-table entry with a missing hook
descriptor makes it return `Err(HookInfoNotFound)` after only the EPT
swap; in both cases the condition surfaces as a host-side error and no
guest-visible fault is injected. -/
theorem C5_internal_invariant_errors (vmA vmB : Vm) (spaA spaB : Nat)
    (hsA : vmA.hook_manager.memory_manager.get_shadow_page_as_ptr
        (align_down_to_base_page (vmA.va_to_pa vmA.guest_registers.rip)) = some spaA)
    (hptA : vmA.hook_manager.memory_manager.get_page_table_as_mut
        (align_down_to_large_page (align_down_to_base_page (vmA.va_to_pa vmA.guest_registers.rip))) = none)
    (hsB : vmB.hook_manager.memory_manager.get_shadow_page_as_ptr
        (align_down_to_base_page (vmB.va_to_pa vmB.guest_registers.rip)) = some spaB)
    (hptB : vmB.hook_manager.memory_manager.get_page_table_as_mut
        (align_down_to_large_page (align_down_to_base_page (vmB.va_to_pa vmB.guest_registers.rip))) = some ())
    (hhiB : vmB.hook_manager.memory_manager.get_hook_info_by_function_pa
        (align_down_to_base_page (vmB.va_to_pa vmB.guest_registers.rip))
        (vmB.va_to_pa vmB.guest_registers.rip) = none) :
    (handle_vmcall vmA).result = .error .PageTableNotFound ∧
    (handle_vmcall vmA).trace = [] ∧
    (handle_vmcall vmA).vm.pending_gp = vmA.pending_gp ∧
    (handle_vmcall vmB).result = .error .HookInfoNotFound ∧
    (handle_vmcall vmB).trace =
      [.swapPage (align_down_to_base_page (vmB.va_to_pa vmB.guest_registers.rip))
         (align_down_to_base_page (vmB.va_to_pa vmB.guest_registers.rip)) .READ_WRITE_EXECUTE] ∧
    (handle_vmcall vmB).vm.pending_gp = vmB.pending_gp := by
  rw [handle_vmcall_no_pt_eq vmA spaA hsA hptA,
      handle_vmcall_no_hook_info_eq vmB spaB hsB hptB hhiB]
  exact ⟨rfl, rfl, rfl, rfl, rfl, rfl⟩

/-- Witness for C5 at the two concrete inconsistent contexts. -/
theorem C5_witness :
    (handle_vmcall vmMissingPt).result = .error .PageTableNotFound ∧
    (handle_vmcall vmMissingPt).trace = [] ∧
    (handle_vmcall vmMissingPt).vm.pending_gp = vmMissingPt.pending_gp ∧
    (handle_vmcall vmMissingHookInfo).result = .error .HookInfoNotFound ∧
    (handle_vmcall vmMissingHookInfo).trace =
      [.swapPage 0x1000 0x1000 .READ_WRITE_EXECUTE] ∧
    (handle_vmcall vmMissingHookInfo).vm.pending_gp = vmMissingHookInfo.pending_gp :=
  C5_internal_invariant_errors vmMissingPt vmMissingHookInfo 0x5000 0x5000
    rfl rfl rfl rfl rfl

/-- C6: on the hook-activation path, `handle_vmcall` stores into the
single-step counter exactly
`calculate_instruction_count(guest_function_pa, hook_size(hook_kind))`,
the instruction count covering at least the hook patch size with whole
instructions. -/
theorem C6_instruction_count_stored (vm : Vm) (spa : Nat) (info : HookInfo)
    (hs : vm.hook_manager.memory_manager.get_shadow_page_as_ptr
        (align_down_to_base_page (vm.va_to_pa vm.guest_registers.rip)) = some spa)
    (hpt : vm.hook_manager.memory_manager.get_page_table_as_mut
        (align_down_to_large_page (align_down_to_base_page (vm.va_to_pa vm.guest_registers.rip))) = some ())
    (hhi : vm.hook_manager.memory_manager.get_hook_info_by_function_pa
        (align_down_to_base_page (vm.va_to_pa vm.guest_registers.rip))
        (vm.va_to_pa vm.guest_registers.rip) = some info) :
    (handle_vmcall vm).result = .ok .Continue ∧
    (handle_vmcall vm).vm.hook_manager.mtf_counter =
      some (calculate_instruction_count vm.insn_len (vm.va_to_pa vm.guest_registers.rip)
        (vm.hook_size info.ept_hook_type)) := by
  rw [handle_vmcall_hooked_eq vm spa info hs hpt hhi]
  exact ⟨rfl, rfl⟩

/-- Witness for C6 at the concrete hooked context: one-byte instructions
and a three-byte patch give a counter of 3. -/
theorem C6_witness :
    (handle_vmcall vmHooked).result = .ok .Continue ∧
    (handle_vmcall vmHooked).vm.hook_manager.mtf_counter = some 3 :=
  C6_instruction_count_stored vmHooked 0x5000 ⟨0x1000, 0x1000, .kernelInline⟩ rfl rfl rfl

/-- C7: when the guest RIP's page has no shadow page, `handle_vmcall`
leaves the EPT, the single-step counter, the monitor trap flag and the
guest interrupt-enable flag unchanged; its only effects are the
general-protection fault injection and the Continue result. -/
theorem C7_no_hook_frame (vm : Vm)
    (hs : vm.hook_manager.memory_manager.get_shadow_page_as_ptr
        (align_down_to_base_page (vm.va_to_pa vm.guest_registers.rip)) = none) :
    (handle_vmcall vm).result = .ok .Continue ∧
    (handle_vmcall vm).trace = [.injectGP 0] ∧
    (handle_vmcall vm).vm = { vm with pending_gp := some 0 } ∧
    (handle_vmcall vm).vm.primary_ept = vm.primary_ept ∧
    (handle_vmcall vm).vm.hook_manager.mtf_counter = vm.hook_manager.mtf_counter ∧
    (handle_vmcall vm).vm.monitor_trap_flag = vm.monitor_trap_flag ∧
    (handle_vmcall vm).vm.interrupt_flag = vm.interrupt_flag := by
  rw [handle_vmcall_no_shadow_eq vm hs]
  exact ⟨rfl, rfl, rfl, rfl, rfl, rfl, rfl⟩

/-- Witness for C7 at the concrete unhooked context. -/
theorem C7_witness :
    (handle_vmcall vmNoHook).result = .ok .Continue ∧
    (handle_vmcall vmNoHook).trace = [.injectGP 0] ∧
    (handle_vmcall vmNoHook).vm = { vmNoHook with pending_gp := some 0 } ∧
    (handle_vmcall vmNoHook).vm.primary_ept = vmNoHook.primary_ept ∧
    (handle_vmcall vmNoHook).vm.hook_manager.mtf_counter = vmNoHook.hook_manager.mtf_counter ∧
    (handle_vmcall vmNoHook).vm.monitor_trap_flag = vmNoHook.monitor_trap_flag ∧
    (handle_vmcall vmNoHook).vm.interrupt_flag = vmNoHook.interrupt_flag :=
  C7_no_hook_frame vmNoHook rfl

/-- C8: `handle_vmcall` is independent of the hypercall command number in
guest RAX: two contexts identical except for RAX produce the same return
value, the same effect trace, and final states identical except for RAX
itself — the dispatch depends only on whether the RIP's page has a shadow
page. -/
theorem C8_rax_independent (vm : Vm) (a b : Nat) :
    (handle_vmcall (vm.setRax a)).result = (handle_vmcall (vm.setRax b)).result ∧
    (handle_vmcall (vm.setRax a)).trace = (handle_vmcall (vm.setRax b)).trace ∧
    (handle_vmcall (vm.setRax a)).vm = ((handle_vmcall (vm.setRax b)).vm).setRax a := by
  rw [handle_vmcall_setRax vm a, handle_vmcall_setRax vm b]
  exact ⟨rfl, rfl, rfl⟩

/-- C9: whenever `handle_vmcall` returns `Err(HookInfoNotFound)` from a
steady state (counter unset, single-stepping disarmed), the EPT swap for
the guest page has already been performed and persists, while the counter
is still unset, the monitor trap flag is still unarmed, and the guest
interrupt-enable flag is unmodified. -/
theorem C9_hook_info_error_not_atomic (vm : Vm)
    (hres : (handle_vmcall vm).result = .error .HookInfoNotFound)
    (hc : vm.hook_manager.mtf_counter = none)
    (hf : vm.monitor_trap_flag = false) :
    (handle_vmcall vm).vm.primary_ept.translate
        (align_down_to_base_page (vm.va_to_pa vm.guest_registers.rip)) =
      some (align_down_to_base_page (vm.va_to_pa vm.guest_registers.rip), .READ_WRITE_EXECUTE) ∧
    (handle_vmcall vm).trace =
      [.swapPage (align_down_to_base_page (vm.va_to_pa vm.guest_registers.rip))
         (align_down_to_base_page (vm.va_to_pa vm.guest_registers.rip)) .READ_WRITE_EXECUTE] ∧
    (handle_vmcall vm).vm.hook_manager.mtf_counter = none ∧
    (handle_vmcall vm).vm.monitor_trap_flag = false ∧
    (handle_vmcall vm).vm.interrupt_flag = vm.interrupt_flag ∧
    (handle_vmcall vm).vm.old_if = vm.old_if := by
  cases hs : vm.hook_manager.memory_manager.get_shadow_page_as_ptr
      (align_down_to_base_page (vm.va_to_pa vm.guest_registers.rip)) with
  | none =>
    rw [handle_vmcall_no_shadow_eq vm hs] at hres
    simp at hres
  | some spa =>
    cases hpt : vm.hook_manager.memory_manager.get_page_table_as_mut
        (align_down_to_large_page (align_down_to_base_page (vm.va_to_pa vm.guest_registers.rip))) with
    | none =>
      rw [handle_vmcall_no_pt_eq vm spa hs hpt] at hres
      simp at hres
    | some pt =>
      cases hhi : vm.hook_manager.memory_manager.get_hook_info_by_function_pa
          (align_down_to_base_page (vm.va_to_pa vm.guest_registers.rip))
          (vm.va_to_pa vm.guest_registers.rip) with
      | some info =>
        rw [handle_vmcall_hooked_eq vm spa info hs hpt hhi] at hres
        simp at hres
      | none =>
        rw [handle_vmcall_no_hook_info_eq vm spa hs hpt hhi]
        refine ⟨?_, rfl, hc, hf, rfl, rfl⟩
        simp [Ept.translate, List.lookup]

/-- Witness for C9 at the concrete context with a shadow page but no hook
descriptor. -/
theorem C9_witness :
    (handle_vmcall vmMissingHookInfo).vm.primary_ept.translate 0x1000 =
      some (0x1000, .READ_WRITE_EXECUTE) ∧
    (handle_vmcall vmMissingHookInfo).trace =
      [.swapPage 0x1000 0x1000 .READ_WRITE_EXECUTE] ∧
    (handle_vmcall vmMissingHookInfo).vm.hook_manager.mtf_counter = none ∧
    (handle_vmcall vmMissingHookInfo).vm.monitor_trap_flag = false ∧
    (handle_vmcall vmMissingHookInfo).vm.interrupt_flag = vmMissingHookInfo.interrupt_flag ∧
    (handle_vmcall vmMissingHookInfo).vm.old_if = vmMissingHookInfo.old_if :=
  C9_hook_info_error_not_atomic vmMissingHookInfo rfl rfl rfl

/-- C10: `Commands::from_u64` is total with a catch-all — it maps 0, 1, 2
to the three explicit commands and every other value to `Invalid` — and
`from_u64 (c as u64)` round-trips for each non-Invalid command. -/
theorem C10_from_u64_total (v : Nat) (h0 : v ≠ 0) (h1 : v ≠ 1) (h2 : v ≠ 2) :
    Commands.from_u64 0 = .EnableKernelInlineHook ∧
    Commands.from_u64 1 = .EnableSyscallInlineHook ∧
    Commands.from_u64 2 = .DisablePageHook ∧
    Commands.from_u64 v = .Invalid ∧
    Commands.from_u64 Commands.EnableKernelInlineHook.toU64 = .EnableKernelInlineHook ∧
    Commands.from_u64 Commands.EnableSyscallInlineHook.toU64 = .EnableSyscallInlineHook ∧
    Commands.from_u64 Commands.DisablePageHook.toU64 = .DisablePageHook := by
  refine ⟨rfl, rfl, rfl, ?_, rfl, rfl, rfl⟩
  unfold Commands.from_u64
  split <;> first | rfl | omega

/-- Witness for C10 at the concrete command number 0xDEADBEEF. -/
theorem C10_witness :
    Commands.from_u64 0 = .EnableKernelInlineHook ∧
    Commands.from_u64 1 = .EnableSyscallInlineHook ∧
    Commands.from_u64 2 = .DisablePageHook ∧
    Commands.from_u64 0xDEADBEEF = .Invalid ∧
    Commands.from_u64 Commands.EnableKernelInlineHook.toU64 = .EnableKernelInlineHook ∧
    Commands.from_u64 Commands.EnableSyscallInlineHook.toU64 = .EnableSyscallInlineHook ∧
    Commands.from_u64 Commands.DisablePageHook.toU64 = .DisablePageHook :=
  C10_from_u64_total 0xDEADBEEF (by decide) (by decide) (by decide)

end Illusion
